import Mathlib

/-!
Verification of the parameter-descriptor and optimizer logic of
mloptimizer/genoptimizer.py, shallowly embedded in Lean.

Python integers are modelled as ℤ, Python numbers (int or float results of
decoding) as ℚ, the Python value None as the value none of an Option type,
and Python dicts (which preserve insertion order and have unique keys) as
association lists in insertion order.  Fallible code returns Except String.
-/

/-- The value stored in a Param's type field.  The source stores either the
Python type objects int and float or the strings "nexp" and "x10"; any
other value is possible in principle, represented here by a tag. -/
inductive ParamType where
  | pyInt
  | pyFloat
  | nexp
  | x10
  | other (s : String)
deriving DecidableEq

/-- Param (genoptimizer.py lines 16-36): stores a hyperparameter's name,
inclusive integer bounds on the raw gene, its decoding type, the
denominator used by the float rule (default 100), and values_str
(default the empty list, unused by the visible logic). -/
structure Param where
  name : String
  minValue : ℤ
  maxValue : ℤ
  type : ParamType
  denominator : ℤ
  values_str : List String
deriving DecidableEq

/-- Constructor with an explicit denominator, values_str defaulted to []
as in the Python signature. -/
def mkParamD (name : String) (minV maxV : ℤ) (t : ParamType) (denom : ℤ) : Param :=
  ⟨name, minV, maxV, t, denom, []⟩

/-- Constructor with the Python default denominator of 100. -/
def mkParam (name : String) (minV maxV : ℤ) (t : ParamType) : Param :=
  mkParamD name minV maxV t 100

/-- Param.correct (lines 38-56).  The raw gene is an integer, so the
initial value = int(value) cast is the identity and the input is taken
as ℤ.  ret starts as None and is only assigned for the four recognized
types, so an unrecognized type returns None. -/
def Param.correct (p : Param) (value : ℤ) : Option ℚ :=
  match p.type with
  | .pyInt => some (value : ℚ)
  | .pyFloat => some ((value : ℚ) / (p.denominator : ℚ))
  | .nexp => some ((10 : ℚ) ^ (-value))
  | .x10 => some ((value : ℚ) * 10)
  | .other _ => none

/-- Param.__eq__ (lines 58-63): compares name, minValue, type and
denominator only. -/
def Param.pyEq (p q : Param) : Bool :=
  p.name == q.name && p.minValue == q.minValue &&
    decide (p.type = q.type) && p.denominator == q.denominator

/-- An ordered mapping from parameter name to descriptor, the shape of
every params / default_params dict in the source. -/
abbrev Table := List (String × Param)

/-- TreeOptimizer.get_default_params (lines 273-282). -/
def TreeOptimizer.get_default_params : Table :=
  [("min_samples_split", mkParam "min_samples_split" 2 50 .pyInt),
   ("min_samples_leaf", mkParam "min_samples_leaf" 1 20 .pyInt),
   ("max_depth", mkParam "max_depth" 2 50 .pyInt),
   ("min_impurity_decrease", mkParamD "min_impurity_decrease" 0 150 .pyFloat 1000),
   ("ccp_alpha", mkParamD "ccp_alpha" 0 300 .pyFloat 100000)]

/-- ForestOptimizer.get_default_params (lines 315-323). -/
def ForestOptimizer.get_default_params : Table :=
  [("max_features", mkParamD "max_features" 75 90 .pyFloat 100),
   ("n_estimators", mkParam "n_estimators" 50 250 .pyInt),
   ("max_depth", mkParam "max_depth" 3 40 .pyInt),
   ("max_samples", mkParamD "max_samples" 20 50 .pyFloat 100)]

/-- MLPOptimizer.get_default_params (lines 495-504).  Note the name field
of the descriptors stored under the keys layer2 and layer3 is "layer1",
exactly as written in the source. -/
def MLPOptimizer.get_default_params : Table :=
  [("learning_rate_init", mkParam "lr" 1 6 .nexp),
   ("alpha", mkParam "alpha" 1 6 .nexp),
   ("layer1", mkParam "layer1" 5 30 .x10),
   ("layer2", mkParam "layer1" 1 20 .x10),
   ("layer3", mkParam "layer1" 1 10 .x10)]

/-- C1: Param.correct returns the raw value for the integer type, value
divided by the denominator for the float type, ten to the minus value for
"nexp", ten times the value for "x10", and no value for any other type;
with denominator 1000 a raw 150 decodes to 0.15, nexp of 3 decodes to
0.001, and x10 of 20 decodes to 200. -/
theorem C1_correct_decodes :
    (∀ (n : String) (a b d : ℤ) (vs : List String) (v : ℤ),
      (Param.mk n a b .pyInt d vs).correct v = some (v : ℚ) ∧
      (Param.mk n a b .pyFloat d vs).correct v = some ((v : ℚ) / (d : ℚ)) ∧
      (Param.mk n a b .nexp d vs).correct v = some ((10 : ℚ) ^ (-v)) ∧
      (Param.mk n a b .x10 d vs).correct v = some ((v : ℚ) * 10) ∧
      (∀ s, (Param.mk n a b (.other s) d vs).correct v = none)) ∧
    (mkParamD "min_impurity_decrease" 0 150 .pyFloat 1000).correct 150 = some (15 / 100) ∧
    (mkParam "lr" 1 6 .nexp).correct 3 = some (1 / 1000) ∧
    (mkParam "layer1" 5 30 .x10).correct 20 = some 200 := by
  refine ⟨fun n a b d vs v => ⟨rfl, rfl, rfl, rfl, fun s => rfl⟩, ?_, ?_, ?_⟩
  · simp [Param.correct, mkParamD]
    norm_num
  · simp [Param.correct, mkParam, mkParamD]
    norm_num
  · simp [Param.correct, mkParam, mkParamD]
    norm_num

/-- C9: in MLPOptimizer's default table the descriptors stored under the
keys layer2 and layer3 both carry the name field "layer1", while the
dictionary keys themselves are layer2 and layer3 in order. -/
theorem C9_mlp_layer_names :
    (MLPOptimizer.get_default_params.lookup "layer2").map Param.name = some "layer1" ∧
    (MLPOptimizer.get_default_params.lookup "layer3").map Param.name = some "layer1" ∧
    MLPOptimizer.get_default_params.map Prod.fst =
      ["learning_rate_init", "alpha", "layer1", "layer2", "layer3"] := by
  refine ⟨?_, ?_, rfl⟩ <;> rfl

/-- C10: Param.pyEq holds exactly when name, minValue, type and denominator
all agree, so two descriptors differing only in maxValue compare equal. -/
theorem C10_param_eq :
    (∀ p q : Param, Param.pyEq p q = true ↔
      (p.name = q.name ∧ p.minValue = q.minValue ∧ p.type = q.type ∧
        p.denominator = q.denominator)) ∧
    (Param.pyEq (mkParam "max_depth" 2 50 .pyInt) (mkParam "max_depth" 2 40 .pyInt) = true ∧
      (mkParam "max_depth" 2 50 .pyInt).maxValue ≠ (mkParam "max_depth" 2 40 .pyInt).maxValue) := by
  constructor
  · intro p q
    simp [Param.pyEq, and_assoc]
  · constructor
    · rfl
    · decide

/-- BaseOptimizer.get_params (lines 105-123): iterates over the default
table's keys in order; for each key takes the caller's custom descriptor
when the key is in custom_params, else the default one.  Python dict keys
are unique, so testing k in custom_params is lookup and the per-key read
default_params[k] returns that entry's own descriptor. -/
def BaseOptimizer.get_params (defaults custom : Table) : Table :=
  defaults.map (fun kv =>
    match custom.lookup kv.1 with
    | some p => (kv.1, p)
    | none => kv)

/-- The recursion behind individual2dict: pair the i-th key with the i-th
gene; reading past the end of the individual is an IndexError. -/
def i2dGo {α : Type} : List String → List α → Except String (List (String × α))
  | [], _ => .ok []
  | _ :: _, [] => .error "IndexError: list index out of range"
  | k :: ks, v :: vs => (i2dGo ks vs).map (fun d => (k, v) :: d)

/-- BaseOptimizer.individual2dict (lines 97-103): builds a dict mapping the
i-th parameter key to the individual's i-th gene, unchanged. -/
def BaseOptimizer.individual2dict {α : Type} (tbl : Table) (ind : List α) :
    Except String (List (String × α)) :=
  i2dGo (tbl.map Prod.fst) ind

/-- BaseOptimizer.init_individual (lines 84-95): one randint(min, max) draw
per parameter, in table order; the randint source is passed explicitly. -/
def BaseOptimizer.init_individual (rand : ℤ → ℤ → ℤ) (tbl : Table) : List ℤ :=
  tbl.map (fun kp => rand kp.2.minValue kp.2.maxValue)

lemma get_params_keys (defaults custom : Table) :
    (BaseOptimizer.get_params defaults custom).map Prod.fst = defaults.map Prod.fst := by
  induction defaults with
  | nil => rfl
  | cons kv rest ih =>
    simp only [BaseOptimizer.get_params, List.map_cons] at *
    cases h : custom.lookup kv.1 <;> simp [ih]

lemma lookup_map_resolve (custom : Table) (k : String) (defaults : Table)
    (hnd : (defaults.map Prod.fst).Nodup) (hk : k ∈ defaults.map Prod.fst) :
    (BaseOptimizer.get_params defaults custom).lookup k =
      match custom.lookup k with
      | some p => some p
      | none => defaults.lookup k := by
  induction defaults with
  | nil => simp at hk
  | cons kv rest ih =>
    obtain ⟨k0, p0⟩ := kv
    simp only [List.map_cons, List.nodup_cons, List.mem_cons] at hnd hk
    by_cases hek : k = k0
    · subst hek
      cases h : custom.lookup k with
      | some p => simp [BaseOptimizer.get_params, List.lookup, h]
      | none => simp [BaseOptimizer.get_params, List.lookup, h]
    · have hkr : k ∈ rest.map Prod.fst := hk.resolve_left hek
      have hrec := ih hnd.2 hkr
      have hbeq : (k == k0) = false := by simp [hek]
      cases h : custom.lookup k0 with
      | some p => simpa [BaseOptimizer.get_params, List.lookup, h, hbeq] using hrec
      | none => simpa [BaseOptimizer.get_params, List.lookup, h, hbeq] using hrec

lemma lookup_eq_none_of_not_mem {β : Type} (l : List (String × β)) (k : String)
    (hk : k ∉ l.map Prod.fst) : l.lookup k = none := by
  induction l with
  | nil => rfl
  | cons kv rest ih =>
    simp only [List.map_cons, List.mem_cons, not_or] at hk
    have hbeq : (k == kv.1) = false := by simp [hk.1]
    simp [List.lookup, hbeq, ih hk.2]

/-- C5: the resolved table's keys are exactly the default keys in order;
with unique default keys, each key resolves to the custom descriptor when
present in custom_params and to the default one otherwise; keys of
custom_params outside the default table contribute no entry. -/
theorem C5_get_params_merge (defaults custom : Table)
    (hnd : (defaults.map Prod.fst).Nodup) :
    ((BaseOptimizer.get_params defaults custom).map Prod.fst = defaults.map Prod.fst) ∧
    (∀ k ∈ defaults.map Prod.fst,
      (BaseOptimizer.get_params defaults custom).lookup k =
        match custom.lookup k with
        | some p => some p
        | none => defaults.lookup k) ∧
    (∀ k, k ∉ defaults.map Prod.fst →
      (BaseOptimizer.get_params defaults custom).lookup k = none) := by
  refine ⟨get_params_keys defaults custom,
    fun k hk => lookup_map_resolve custom k defaults hnd hk,
    fun k hk => lookup_eq_none_of_not_mem _ k ?_⟩
  rw [get_params_keys]
  exact hk

theorem C5_get_params_merge_witness :
    ((ForestOptimizer.get_default_params.map Prod.fst).Nodup) ∧
    (let custom : Table := [("max_depth", mkParam "max_depth" 1 99 .pyInt)]
     ((BaseOptimizer.get_params ForestOptimizer.get_default_params custom).map Prod.fst =
        ForestOptimizer.get_default_params.map Prod.fst) ∧
     (∀ k ∈ ForestOptimizer.get_default_params.map Prod.fst,
       (BaseOptimizer.get_params ForestOptimizer.get_default_params custom).lookup k =
         match custom.lookup k with
         | some p => some p
         | none => ForestOptimizer.get_default_params.lookup k) ∧
     (∀ k, k ∉ ForestOptimizer.get_default_params.map Prod.fst →
       (BaseOptimizer.get_params ForestOptimizer.get_default_params custom).lookup k = none)) :=
  ⟨by decide, C5_get_params_merge ForestOptimizer.get_default_params _ (by decide)⟩

lemma i2dGo_eq_zip {α : Type} (keys : List String) (ind : List α)
    (h : keys.length ≤ ind.length) : i2dGo keys ind = .ok (keys.zip ind) := by
  induction keys generalizing ind with
  | nil => simp [i2dGo]
  | cons k ks ih =>
    cases ind with
    | nil => simp at h
    | cons v vs =>
      simp only [List.length_cons, Nat.add_le_add_iff_right] at h
      simp [i2dGo, ih vs h, List.zip_cons_cons, Except.map]

lemma zip_lookup_values {α : Type} (keys : List String) (ind : List α)
    (hnd : keys.Nodup) (hlen : ind.length = keys.length) :
    keys.map (fun k => (keys.zip ind).lookup k) = ind.map some := by
  induction keys generalizing ind with
  | nil =>
    cases ind with
    | nil => rfl
    | cons v vs => simp at hlen
  | cons k ks ih =>
    cases ind with
    | nil => simp at hlen
    | cons v vs =>
      simp only [List.length_cons, Nat.add_right_cancel_iff] at hlen
      simp only [List.nodup_cons] at hnd
      have hstep : ∀ x ∈ ks, (((k, v) :: ks.zip vs).lookup x) = (ks.zip vs).lookup x := by
        intro x hx
        have hbeq : (x == k) = false := by
          simp only [beq_eq_false_iff_ne, ne_eq]
          intro he
          exact hnd.1 (he ▸ hx)
        simp [List.lookup, hbeq]
      calc (k :: ks).map (fun x => ((k :: ks).zip (v :: vs)).lookup x)
          = ((k, v) :: ks.zip vs).lookup k ::
              ks.map (fun x => ((k, v) :: ks.zip vs).lookup x) := by
            simp [List.zip_cons_cons]
        _ = some v :: ks.map (fun x => (ks.zip vs).lookup x) := by
            rw [List.map_congr_left hstep]
            simp [List.lookup]
        _ = some v :: vs.map some := by rw [ih vs hnd.2 hlen]
        _ = (v :: vs).map some := rfl

/-- C6: with the table's N keys and an individual of N raw genes,
individual2dict succeeds with a dict whose i-th entry pairs the i-th key
with the i-th gene unchanged, and reading the dict's values back in key
order reproduces the individual exactly. -/
theorem C6_individual2dict_roundtrip (tbl : Table) (ind : List ℤ)
    (hnd : (tbl.map Prod.fst).Nodup) (hlen : ind.length = (tbl.map Prod.fst).length) :
    ∃ d, BaseOptimizer.individual2dict tbl ind = .ok d ∧
      d.map Prod.fst = tbl.map Prod.fst ∧
      d.map Prod.snd = ind ∧
      (tbl.map Prod.fst).map (fun k => d.lookup k) = ind.map some := by
  refine ⟨(tbl.map Prod.fst).zip ind, ?_, ?_, ?_, ?_⟩
  · exact i2dGo_eq_zip _ ind (le_of_eq hlen.symm)
  · exact List.map_fst_zip _ ind (le_of_eq hlen.symm)
  · exact List.map_snd_zip _ ind (le_of_eq hlen)
  · exact zip_lookup_values _ ind hnd hlen

theorem C6_individual2dict_roundtrip_witness :
    ((TreeOptimizer.get_default_params.map Prod.fst).Nodup ∧
      ([(2 : ℤ), 1, 2, 150, 0]).length =
        (TreeOptimizer.get_default_params.map Prod.fst).length) ∧
    (∃ d, BaseOptimizer.individual2dict TreeOptimizer.get_default_params
        [(2 : ℤ), 1, 2, 150, 0] = .ok d ∧
      d.map Prod.fst = TreeOptimizer.get_default_params.map Prod.fst ∧
      d.map Prod.snd = [(2 : ℤ), 1, 2, 150, 0] ∧
      (TreeOptimizer.get_default_params.map Prod.fst).map (fun k => d.lookup k) =
        ([(2 : ℤ), 1, 2, 150, 0]).map some) :=
  ⟨⟨by decide, by decide⟩,
    C6_individual2dict_roundtrip TreeOptimizer.get_default_params _ (by decide) (by decide)⟩

/-- C8: init_individual produces one gene per parameter in table order;
whenever the random source respects the randint contract and each
parameter's bounds are ordered, every gene lies within its parameter's
inclusive range, and a parameter with equal bounds always yields exactly
that value. -/
theorem C8_init_individual_bounds (rand : ℤ → ℤ → ℤ) (tbl : Table)
    (hrand : ∀ a b : ℤ, a ≤ b → a ≤ rand a b ∧ rand a b ≤ b)
    (htbl : ∀ kp ∈ tbl, kp.2.minValue ≤ kp.2.maxValue) :
    (BaseOptimizer.init_individual rand tbl).length = tbl.length ∧
    List.Forall₂ (fun (kp : String × Param) (g : ℤ) =>
      kp.2.minValue ≤ g ∧ g ≤ kp.2.maxValue ∧
        (kp.2.minValue = kp.2.maxValue → g = kp.2.minValue)) tbl
      (BaseOptimizer.init_individual rand tbl) := by
  constructor
  · simp [BaseOptimizer.init_individual]
  · induction tbl with
    | nil => exact List.Forall₂.nil
    | cons kp rest ih =>
      have hh := htbl kp (List.mem_cons_self kp rest)
      have hr := hrand _ _ hh
      refine List.Forall₂.cons ⟨hr.1, hr.2, fun he => ?_⟩
        (ih (fun x hx => htbl x (List.mem_cons_of_mem _ hx)))
      exact le_antisymm (by rw [he]; exact hr.2) hr.1

theorem C8_init_individual_bounds_witness :
    ((∀ a b : ℤ, a ≤ b → a ≤ (fun a _ => a) a b ∧ (fun a _ => a) a b ≤ b) ∧
      (∀ kp ∈ TreeOptimizer.get_default_params, kp.2.minValue ≤ kp.2.maxValue)) ∧
    ((BaseOptimizer.init_individual (fun a _ => a) TreeOptimizer.get_default_params).length =
        TreeOptimizer.get_default_params.length ∧
      List.Forall₂ (fun (kp : String × Param) (g : ℤ) =>
        kp.2.minValue ≤ g ∧ g ≤ kp.2.maxValue ∧
          (kp.2.minValue = kp.2.maxValue → g = kp.2.minValue))
        TreeOptimizer.get_default_params
        (BaseOptimizer.init_individual (fun a _ => a) TreeOptimizer.get_default_params)) :=
  ⟨⟨fun a b h => ⟨le_refl a, h⟩, by decide⟩,
    C8_init_individual_bounds (fun a _ => a) TreeOptimizer.get_default_params
      (fun a b h => ⟨le_refl a, h⟩) (by decide)⟩

/-- GradientBoostingOptimizer.get_params (lines 363-376): computes the
inherited table via the superclass get_params, then executes
params.append(Param(...)) for learning_rate.  params is a Python dict, and
dict has no attribute named append, so the first such call raises
AttributeError before any entry can be added; no table is returned. -/
def GradientBoostingOptimizer.get_params (custom : Table) : Except String Table :=
  let _params := BaseOptimizer.get_params ForestOptimizer.get_default_params custom
  Except.error "AttributeError: dict object has no attribute append"

/-- The spec's stated correct semantics for the gradient-boosting parameter
table: extend the inherited ordered mapping with two additional named
entries, learning_rate (float, raw 1-10000, denominator 1000000) and
subsample (float, raw 0-100, denominator 100), preserving all inherited
entries and their order. -/
def GradientBoostingOptimizer.get_params_spec (custom : Table) : Table :=
  BaseOptimizer.get_params ForestOptimizer.get_default_params custom ++
    [("learning_rate", mkParamD "learning_rate" 1 10000 .pyFloat 1000000),
     ("subsample", mkParamD "subsample" 0 100 .pyFloat 100)]

/-- C2: contrary to the claim, the code's GradientBoostingOptimizer
get_params never returns an extended mapping: for every custom_params it
raises AttributeError, because it calls append on a dict.  The spec-stated
semantics (the separate get_params_spec) does extend the inherited table
in place: the inherited entries form an unchanged prefix and the two new
named entries follow. -/
theorem C2_gb_get_params_raises :
    (∀ custom : Table, GradientBoostingOptimizer.get_params custom =
      Except.error "AttributeError: dict object has no attribute append") ∧
    (∀ custom : Table,
      (GradientBoostingOptimizer.get_params_spec custom).take
          (BaseOptimizer.get_params ForestOptimizer.get_default_params custom).length =
        BaseOptimizer.get_params ForestOptimizer.get_default_params custom ∧
      (GradientBoostingOptimizer.get_params_spec custom).map Prod.fst =
        ForestOptimizer.get_default_params.map Prod.fst ++ ["learning_rate", "subsample"]) := by
  refine ⟨fun custom => rfl, fun custom => ⟨List.take_left _ _, ?_⟩⟩
  simp [GradientBoostingOptimizer.get_params_spec, get_params_keys,
    mkParamD]

/-- Reading a key from a Python dict raises KeyError when it is absent. -/
def dictGet {α : Type} (d : List (String × α)) (k : String) : Except String α :=
  match d.lookup k with
  | some v => .ok v
  | none => .error ("KeyError: " ++ k)

/-- The configured attributes of the ExtraTreesClassifier built at lines
331-355, keyword arguments in source order; gene-derived fields carry the
gene value type, fixed ones their literal values (None as none, n_jobs -1,
criterion "gini", class_weight "balanced", bootstrap and oob_score off). -/
structure ETConfig (α : Type) where
  n_estimators : α
  criterion : String
  max_depth : α
  min_samples_split : α
  min_samples_leaf : α
  min_weight_fraction_leaf : ℤ
  max_features : α
  max_leaf_nodes : Option ℤ
  bootstrap : Bool
  oob_score : Bool
  n_jobs : ℤ
  random_state : Option ℤ
  verbose : ℤ
  warm_start : Bool
  class_weight : String
deriving DecidableEq

/-- ExtraTreesOptimizer.get_clf (lines 331-355): converts the individual to
a dict, then reads the keyword arguments in source order; each read of a
key the dict lacks raises KeyError. -/
def ExtraTreesOptimizer.get_clf {α : Type} (tbl : Table) (ind : List α) :
    Except String (ETConfig α) := do
  let d ← BaseOptimizer.individual2dict tbl ind
  let ne ← dictGet d "n_estimators"
  let md ← dictGet d "max_depth"
  let mss ← dictGet d "min_samples_split"
  let msl ← dictGet d "min_samples_leaf"
  let mf ← dictGet d "max_features"
  return ⟨ne, "gini", md, mss, msl, 0, mf, none, false, false, -1, none, 0, false, "balanced"⟩

/-- The configured attributes of the GradientBoostingClassifier built at
lines 378-399, keyword arguments in source order. -/
structure GBConfig (α : Type) where
  n_estimators : α
  criterion : String
  max_depth : α
  min_samples_split : α
  min_samples_leaf : α
  min_weight_fraction_leaf : ℤ
  max_features : α
  max_leaf_nodes : Option ℤ
  random_state : Option ℤ
  verbose : ℤ
  warm_start : Bool
  learning_rate : α
  subsample : α
deriving DecidableEq

/-- GradientBoostingOptimizer.get_clf (lines 378-399): dict conversion then
keyword reads in source order, KeyError on a missing key. -/
def GradientBoostingOptimizer.get_clf {α : Type} (tbl : Table) (ind : List α) :
    Except String (GBConfig α) := do
  let d ← BaseOptimizer.individual2dict tbl ind
  let ne ← dictGet d "n_estimators"
  let md ← dictGet d "max_depth"
  let mss ← dictGet d "min_samples_split"
  let msl ← dictGet d "min_samples_leaf"
  let mf ← dictGet d "max_features"
  let lr ← dictGet d "learning_rate"
  let ss ← dictGet d "subsample"
  return ⟨ne, "friedman_mse", md, mss, msl, 0, mf, none, none, 0, false, lr, ss⟩

/-- The parameter table an ExtraTreesOptimizer resolves at construction
with no custom-params override: the inherited forest defaults merged with
an empty custom mapping (line 81 with lines 105-123 and 315-323). -/
def extraTreesResolvedParams : Table :=
  BaseOptimizer.get_params ForestOptimizer.get_default_params []

/-- The parameter table a GradientBoostingOptimizer would resolve with no
custom-params override under the spec's intended extend semantics (the
code's own get_params raises instead; see C2). -/
def gradientBoostingResolvedParams : Table :=
  GradientBoostingOptimizer.get_params_spec []

/-- C3: with no custom-params override, the extra-trees resolved table has
neither min_samples_split nor min_samples_leaf, and get_clf on every
individual matching that table fails with KeyError for min_samples_split;
likewise for the gradient-boosting table (taken under the spec's intended
extend semantics, since the code's own get_params already raises). -/
theorem C3_missing_split_keys
    (ind : List ℚ) (hlen : ind.length = extraTreesResolvedParams.length)
    (ind2 : List ℚ) (hlen2 : ind2.length = gradientBoostingResolvedParams.length) :
    (extraTreesResolvedParams.lookup "min_samples_split" = none ∧
      extraTreesResolvedParams.lookup "min_samples_leaf" = none ∧
      ExtraTreesOptimizer.get_clf extraTreesResolvedParams ind =
        .error "KeyError: min_samples_split") ∧
    (gradientBoostingResolvedParams.lookup "min_samples_split" = none ∧
      gradientBoostingResolvedParams.lookup "min_samples_leaf" = none ∧
      GradientBoostingOptimizer.get_clf gradientBoostingResolvedParams ind2 =
        .error "KeyError: min_samples_split") := by
  refine ⟨⟨by decide, by decide, ?_⟩, ⟨by decide, by decide, ?_⟩⟩
  · have h4 : ind.length = 4 := by rw [hlen]; rfl
    rcases ind with _ | ⟨a, _ | ⟨b, _ | ⟨c, _ | ⟨d, _ | ⟨e, rest⟩⟩⟩⟩⟩ <;>
      first
      | rfl
      | (exfalso; simp at h4)
  · have h6 : ind2.length = 6 := by rw [hlen2]; rfl
    rcases ind2 with _ | ⟨a, _ | ⟨b, _ | ⟨c, _ | ⟨d, _ | ⟨e, _ | ⟨f, _ | ⟨g, rest⟩⟩⟩⟩⟩⟩⟩ <;>
      first
      | rfl
      | (exfalso; simp at h6)

theorem C3_missing_split_keys_witness :
    (([(80 : ℚ), 100, 10, 30]).length = extraTreesResolvedParams.length ∧
      ([(80 : ℚ), 100, 10, 30, 50, 80]).length = gradientBoostingResolvedParams.length) ∧
    ((extraTreesResolvedParams.lookup "min_samples_split" = none ∧
      extraTreesResolvedParams.lookup "min_samples_leaf" = none ∧
      ExtraTreesOptimizer.get_clf extraTreesResolvedParams [(80 : ℚ), 100, 10, 30] =
        .error "KeyError: min_samples_split") ∧
     (gradientBoostingResolvedParams.lookup "min_samples_split" = none ∧
      gradientBoostingResolvedParams.lookup "min_samples_leaf" = none ∧
      GradientBoostingOptimizer.get_clf gradientBoostingResolvedParams
          [(80 : ℚ), 100, 10, 30, 50, 80] =
        .error "KeyError: min_samples_split")) :=
  ⟨⟨rfl, rfl⟩, C3_missing_split_keys [(80 : ℚ), 100, 10, 30] rfl
    [(80 : ℚ), 100, 10, 30, 50, 80] rfl⟩

/-- The configured attributes of the DecisionTreeClassifier built at lines
251-271, keyword arguments in source order. -/
structure DTConfig (α : Type) where
  criterion : String
  class_weight : String
  splitter : String
  max_features : Option ℤ
  max_depth : α
  min_samples_split : α
  min_samples_leaf : α
  min_impurity_decrease : α
  ccp_alpha : α
  max_leaf_nodes : Option ℤ
  random_state : Option ℤ
deriving DecidableEq

/-- TreeOptimizer.get_clf (lines 251-271): dict conversion then keyword
reads in source order, KeyError on a missing key. -/
def TreeOptimizer.get_clf {α : Type} (tbl : Table) (ind : List α) :
    Except String (DTConfig α) := do
  let d ← BaseOptimizer.individual2dict tbl ind
  let md ← dictGet d "max_depth"
  let mss ← dictGet d "min_samples_split"
  let msl ← dictGet d "min_samples_leaf"
  let mid ← dictGet d "min_impurity_decrease"
  let ca ← dictGet d "ccp_alpha"
  return ⟨"gini", "balanced", "best", none, md, mss, msl, mid, ca, none, none⟩

/-- The decoding loop of get_corrected_clf (lines 129-134) on a raw
individual: gene i becomes params[keys[i]].correct(gene i), which is None
for an unrecognized type; genes beyond the table keep their raw value; an
individual shorter than the table is an IndexError on the gene read. -/
def correctedGenes : List Param → List ℤ → Except String (List (Option ℚ))
  | [], rest => .ok (rest.map (fun v => some (v : ℚ)))
  | _ :: _, [] => .error "IndexError: list index out of range"
  | p :: ps, v :: vs => (correctedGenes ps vs).map (fun l => p.correct v :: l)

/-- The parameter table a TreeOptimizer resolves at construction with no
custom-params override (line 81). -/
def treeResolvedParams : Table :=
  BaseOptimizer.get_params TreeOptimizer.get_default_params []

/-- A raw individual viewed as the list of Python numbers it holds. -/
def rawGenes (ind : List ℤ) : List (Option ℚ) :=
  ind.map (fun v => some (v : ℚ))

/-- optimize_clf's return value (line 220) for a TreeOptimizer whose best
hall-of-fame individual is hof0: get_clf applied directly to the raw
genes, no parameter's correct() applied. -/
def treeOptimizeReturn (hof0 : List ℤ) : Except String (DTConfig (Option ℚ)) :=
  TreeOptimizer.get_clf treeResolvedParams (rawGenes hof0)

/-- The configuration whose fitness evaluate_clf measures (line 147): the
classifier built by get_corrected_clf, i.e. get_clf applied to the decoded
genes (lines 129-134). -/
def treeEvaluatedConfig (ind : List ℤ) : Except String (DTConfig (Option ℚ)) :=
  (correctedGenes (treeResolvedParams.map Prod.snd) ind).bind
    (TreeOptimizer.get_clf treeResolvedParams)

/-- C4: for a TreeOptimizer, whenever an individual's decoded gene sequence
differs from its raw one, the configuration optimize_clf returns (built
from raw genes) differs from the configuration that was evaluated for that
individual (built from decoded genes). -/
theorem C4_raw_vs_decoded (ind : List ℤ)
    (hlen : ind.length = treeResolvedParams.length)
    (hdiff : correctedGenes (treeResolvedParams.map Prod.snd) ind ≠ .ok (rawGenes ind)) :
    treeOptimizeReturn ind ≠ treeEvaluatedConfig ind := by
  have h5 : ind.length = 5 := by rw [hlen]; rfl
  rcases ind with _ | ⟨a, _ | ⟨b, _ | ⟨c, _ | ⟨d, _ | ⟨e, rest⟩⟩⟩⟩⟩
  · exfalso; simp at h5
  · exfalso; simp at h5
  · exfalso; simp at h5
  · exfalso; simp at h5
  · exfalso; simp at h5
  obtain rfl : rest = [] := by simpa using h5
  intro heq
  apply hdiff
  have hcfg :
      (TreeOptimizer.get_clf treeResolvedParams (rawGenes [a, b, c, d, e]) :
          Except String (DTConfig (Option ℚ))) =
        TreeOptimizer.get_clf treeResolvedParams
          [some (a : ℚ), some (b : ℚ), some (c : ℚ),
            some ((d : ℚ) / 1000), some ((e : ℚ) / 100000)] := by
    calc TreeOptimizer.get_clf treeResolvedParams (rawGenes [a, b, c, d, e])
        = treeOptimizeReturn [a, b, c, d, e] := rfl
      _ = treeEvaluatedConfig [a, b, c, d, e] := heq
      _ = TreeOptimizer.get_clf treeResolvedParams
            [some (a : ℚ), some (b : ℚ), some (c : ℚ),
              some ((d : ℚ) / 1000), some ((e : ℚ) / 100000)] := rfl
  have h1 : (TreeOptimizer.get_clf treeResolvedParams (rawGenes [a, b, c, d, e]) :
      Except String (DTConfig (Option ℚ))) =
      .ok ⟨"gini", "balanced", "best", none, some (c : ℚ), some (a : ℚ), some (b : ℚ),
        some (d : ℚ), some (e : ℚ), none, none⟩ := rfl
  have h2 : (TreeOptimizer.get_clf treeResolvedParams
        [some (a : ℚ), some (b : ℚ), some (c : ℚ),
          some ((d : ℚ) / 1000), some ((e : ℚ) / 100000)] :
      Except String (DTConfig (Option ℚ))) =
      .ok ⟨"gini", "balanced", "best", none, some (c : ℚ), some (a : ℚ), some (b : ℚ),
        some ((d : ℚ) / 1000), some ((e : ℚ) / 100000), none, none⟩ := rfl
  rw [h1, h2] at hcfg
  simp only [Except.ok.injEq, DTConfig.mk.injEq, and_true, true_and] at hcfg
  have hd : some (d : ℚ) = some ((d : ℚ) / 1000) := hcfg.1
  have he : some (e : ℚ) = some ((e : ℚ) / 100000) := hcfg.2
  show correctedGenes (treeResolvedParams.map Prod.snd) [a, b, c, d, e] =
    .ok (rawGenes [a, b, c, d, e])
  have hcor : (correctedGenes (treeResolvedParams.map Prod.snd) [a, b, c, d, e] :
      Except String (List (Option ℚ))) =
      .ok [some (a : ℚ), some (b : ℚ), some (c : ℚ),
        some ((d : ℚ) / 1000), some ((e : ℚ) / 100000)] := rfl
  have hraw : (Except.ok (rawGenes [a, b, c, d, e]) :
      Except String (List (Option ℚ))) =
      .ok [some (a : ℚ), some (b : ℚ), some (c : ℚ), some (d : ℚ), some (e : ℚ)] := rfl
  rw [hcor, hraw, hd, he]

theorem C4_raw_vs_decoded_witness :
    (([(2 : ℤ), 1, 2, 150, 0]).length = treeResolvedParams.length ∧
      correctedGenes (treeResolvedParams.map Prod.snd) [(2 : ℤ), 1, 2, 150, 0] ≠
        .ok (rawGenes [(2 : ℤ), 1, 2, 150, 0])) ∧
    treeOptimizeReturn [(2 : ℤ), 1, 2, 150, 0] ≠
      treeEvaluatedConfig [(2 : ℤ), 1, 2, 150, 0] := by
  have hdiff : correctedGenes (treeResolvedParams.map Prod.snd) [(2 : ℤ), 1, 2, 150, 0] ≠
      .ok (rawGenes [(2 : ℤ), 1, 2, 150, 0]) := by
    have hcor : (correctedGenes (treeResolvedParams.map Prod.snd) [(2 : ℤ), 1, 2, 150, 0] :
        Except String (List (Option ℚ))) =
        .ok [some (((2 : ℤ) : ℚ)), some (((1 : ℤ) : ℚ)), some (((2 : ℤ) : ℚ)),
          some ((((150 : ℤ) : ℚ)) / (((1000 : ℤ)) : ℚ)),
          some ((((0 : ℤ) : ℚ)) / (((100000 : ℤ)) : ℚ))] := rfl
    have hraw : (Except.ok (rawGenes [(2 : ℤ), 1, 2, 150, 0]) :
        Except String (List (Option ℚ))) =
        .ok [some (((2 : ℤ) : ℚ)), some (((1 : ℤ) : ℚ)), some (((2 : ℤ) : ℚ)),
          some (((150 : ℤ) : ℚ)), some (((0 : ℤ) : ℚ))] := rfl
    rw [hcor, hraw]
    simp only [ne_eq, Except.ok.injEq, List.cons.injEq, Option.some.injEq]
    norm_num
  exact ⟨⟨rfl, hdiff⟩, C4_raw_vs_decoded [(2 : ℤ), 1, 2, 150, 0] rfl hdiff⟩

/-- A store of Python list objects: a reference is an index, alloc hands
out fresh references.  Only the lists of gene values matter here. -/
structure Store where
  mem : Nat → List (Option ℚ)
  next : Nat

/-- Allocating a new list object (what copy.copy of a list does): a fresh
reference holding the given elements. -/
def Store.alloc (s : Store) (v : List (Option ℚ)) : Store × Nat :=
  (⟨fun r => if r = s.next then v else s.mem r, s.next + 1⟩, s.next)

/-- In-place update of element i of the list object at reference r. -/
def Store.write (s : Store) (r : Nat) (i : Nat) (v : Option ℚ) : Store :=
  ⟨fun q => if q = r then (s.mem r).set i v else s.mem q, s.next⟩

/-- correct() applied to a stored gene value: int(None) is a TypeError;
a number is truncated toward zero (the identity on the integers every
gene actually holds) and decoded per the parameter's type. -/
def Param.correctVal (p : Param) (v : Option ℚ) : Except String (Option ℚ) :=
  match v with
  | none => .error "TypeError: int() argument cannot be NoneType"
  | some q => .ok (p.correct (if 0 ≤ q then ⌊q⌋ else -⌊-q⌋))

/-- The loop of get_corrected_clf (lines 131-133) acting on the list object
at reference r: for each parameter in key order, read gene i, decode it,
and write it back in place. -/
def correctWrites : List Param → Nat → Store → Nat → Store × Except String Unit
  | [], _, s, _ => (s, .ok ())
  | p :: ps, i, s, r =>
    match (s.mem r).get? i with
    | none => (s, .error "IndexError: list index out of range")
    | some v =>
      match p.correctVal v with
      | .error e => (s, .error e)
      | .ok w => correctWrites ps (i + 1) (s.write r i w) r

/-- BaseOptimizer.get_corrected_clf (lines 129-134): copy.copy the incoming
individual into a fresh list object, run the decoding loop on the copy in
place, then hand the copy's contents to the concrete get_clf (passed in,
since the method is abstract).  Returns the final store alongside. -/
def BaseOptimizer.get_corrected_clf {β : Type} (clf : List (Option ℚ) → β) (tbl : Table)
    (s : Store) (ref : Nat) : Store × Except String β :=
  match correctWrites (tbl.map Prod.snd) 0 (s.alloc (s.mem ref)).1 (s.alloc (s.mem ref)).2 with
  | (s2, .error e) => (s2, .error e)
  | (s2, .ok _) => (s2, .ok (clf (s2.mem (s.alloc (s.mem ref)).2)))

lemma correctWrites_frame (ps : List Param) (i : Nat) (s : Store) (r q : Nat)
    (hqr : q ≠ r) : ((correctWrites ps i s r).1).mem q = s.mem q := by
  induction ps generalizing i s with
  | nil => rfl
  | cons p rest ih =>
    simp only [correctWrites]
    split
    · rfl
    · split
      · rfl
      · rw [ih]
        simp [Store.write, if_neg hqr]

lemma correctWrites_next (ps : List Param) (i : Nat) (s : Store) (r : Nat) :
    ((correctWrites ps i s r).1).next = s.next := by
  induction ps generalizing i s with
  | nil => rfl
  | cons p rest ih =>
    simp only [correctWrites]
    split
    · rfl
    · split
      · rfl
      · rw [ih]
        rfl

/-- C7: get_corrected_clf never changes the caller's individual: for every
valid reference, the list object it names holds exactly the same genes
after the call as before, since the decoding loop writes only to the fresh
copy. -/
theorem C7_get_corrected_clf_frame {β : Type} (clf : List (Option ℚ) → β) (tbl : Table)
    (s : Store) (ref : Nat) (href : ref < s.next) :
    ((BaseOptimizer.get_corrected_clf clf tbl s ref).1).mem ref = s.mem ref := by
  have hne : ref ≠ (s.alloc (s.mem ref)).2 := Nat.ne_of_lt href
  have hfst : (BaseOptimizer.get_corrected_clf clf tbl s ref).1 =
      (correctWrites (tbl.map Prod.snd) 0 (s.alloc (s.mem ref)).1
        (s.alloc (s.mem ref)).2).1 := by
    unfold BaseOptimizer.get_corrected_clf
    split
    · next s2 e heq => rw [heq]
    · next s2 a heq => rw [heq]
  rw [hfst, correctWrites_frame _ _ _ _ ref hne]
  simp [Store.alloc]

theorem C7_get_corrected_clf_frame_witness :
    (0 < 1) ∧
    ((BaseOptimizer.get_corrected_clf id TreeOptimizer.get_default_params
        ⟨fun _ => [some 2, some 1, some 2, some 150, some 0], 1⟩ 0).1).mem 0 =
      (⟨fun _ => [some 2, some 1, some 2, some 150, some 0], 1⟩ : Store).mem 0 :=
  ⟨Nat.zero_lt_one,
    C7_get_corrected_clf_frame id TreeOptimizer.get_default_params
      ⟨fun _ => [some 2, some 1, some 2, some 150, some 0], 1⟩ 0 Nat.zero_lt_one⟩
